import Mathlib

/-!
Shallow embedding of the waypoint updater node
(`src/ros/src/waypoint_updater/waypoint_updater.py`).

The reals of the source (Python floats) are modelled as `ℝ`; every number
appearing in the source and in the analysed scenarios is exactly representable,
so the idealisation is faithful on them.  Indices are `ℕ` (the traffic waypoint
is `ℤ` because the source uses `-1` as the "no stop signal" sentinel and Python
list indexing accepts negative indices).  The per-tick body `WaypointUpdater.loop`
becomes a pure function from the node state to the next state together with the
optionally published list of final waypoints.
-/

namespace WU

/-- 3-D position with real coordinates (geometry_msgs Point). -/
structure Point where
  x : ℝ
  y : ℝ
  z : ℝ

instance : Inhabited Point := ⟨⟨0, 0, 0⟩⟩

/-- Orientation quaternion (geometry_msgs Quaternion). -/
structure Quat where
  x : ℝ
  y : ℝ
  z : ℝ
  w : ℝ

instance : Inhabited Quat := ⟨⟨0, 0, 0, 1⟩⟩

/-- A waypoint: position, orientation and the `twist.twist.linear.x` target
speed field written by `get_final_waypoints`. -/
structure Waypoint where
  pos : Point
  orient : Quat
  speed : ℝ

instance : Inhabited Waypoint := ⟨⟨default, default, 0⟩⟩

/-- Vehicle pose (`/current_pose`): position and orientation. -/
structure Pose where
  pos : Point
  orient : Quat

/-- Module-level constant `LOOKAHEAD_WPS = 200`. -/
def LOOKAHEAD_WPS : ℕ := 200

/-- Module-level constant `MAX_DECEL = 4.0`. -/
noncomputable def MAX_DECEL : ℝ := 4.0

/-- Module-level constant `STOP_BUFFER = 5.0`. -/
noncomputable def STOP_BUFFER : ℝ := 5.0

/-- Euclidean distance, embedding `WaypointUpdater.distance`. -/
noncomputable def distance (p1 p2 : Point) : ℝ :=
  let x := p1.x - p2.x
  let y := p1.y - p2.y
  let z := p1.z - p2.z
  Real.sqrt (x * x + y * y + z * z)

/-- Modelled from the spec: the two-argument arctangent used by the source
through the external `math.atan2`, with the usual quadrant conventions. -/
noncomputable def atan2 (y x : ℝ) : ℝ :=
  if 0 < x then Real.arctan (y / x)
  else if x < 0 ∧ 0 ≤ y then Real.arctan (y / x) + Real.pi
  else if x < 0 ∧ y < 0 then Real.arctan (y / x) - Real.pi
  else if x = 0 ∧ 0 < y then Real.pi / 2
  else if x = 0 ∧ y < 0 then -(Real.pi / 2)
  else 0

/-- Modelled from the spec: the yaw angle the source obtains through the
external `tf.transformations.euler_from_quaternion` (the spec gives the
closed form `yaw = atan2(2(qw·qz+qx·qy), 1−2(qy²+qz²))` as fully equivalent). -/
noncomputable def quaternionYaw (q : Quat) : ℝ :=
  atan2 (2 * (q.w * q.z + q.x * q.y)) (1 - 2 * (q.y * q.y + q.z * q.z))

/-- The scan of `WaypointUpdater.get_closest_waypoint` after its first
iteration: `i` is the index of the head of the remaining list, `bd`/`bi` are
the running `closest_dist`/`closest_wp`, and the comparison is strict (`<`). -/
noncomputable def closestGo (p : Point) : List Waypoint → ℕ → ℝ → ℕ → ℝ × ℕ
  | [], _, bd, bi => (bd, bi)
  | w :: ws, i, bd, bi =>
    let d := distance p w.pos
    if d < bd then closestGo p ws (i + 1) d i else closestGo p ws (i + 1) bd bi

/-- Embedding of `WaypointUpdater.get_closest_waypoint`: `closest_dist` starts
at the float infinity, so on a non-empty list the first iteration always installs
index 0, after which `closestGo` performs the remaining strict-minimum scan;
on an empty list the loop body never runs and the initial `closest_wp = 0`
is returned. -/
noncomputable def get_closest_waypoint (p : Point) (ws : List Waypoint) : ℕ :=
  match ws with
  | [] => 0
  | w :: rest => (closestGo p rest 1 (distance p w.pos) 0).2

/-- Embedding of `WaypointUpdater.get_next_waypoint`: heading check against
the yaw; if the candidate is more than π/4 off the heading, advance by one
(without wrapping modulo the path length). -/
noncomputable def get_next_waypoint (pose : Pose) (waypoints : List Waypoint) : ℕ :=
  let closest_wp := get_closest_waypoint pose.pos waypoints
  let wp_x := (waypoints.getD closest_wp default).pos.x
  let wp_y := (waypoints.getD closest_wp default).pos.y
  let heading := atan2 (wp_y - pose.pos.y) (wp_x - pose.pos.x)
  let theta := quaternionYaw pose.orient
  let angle := |theta - heading|
  if angle > Real.pi / 4 then closest_wp + 1 else closest_wp

/-- One iteration of the loop body of `WaypointUpdater.get_final_waypoints`:
the waypoint appended for loop counter `i` (`index = i % len(waypoints)`).
The speed branch reads the `braking` flag and, when braking, compares the
distance from the copied position to `waypoints[end_wp]` against
`STOP_BUFFER`; the decay branch uses the loop counter `i` itself. -/
noncomputable def mkFinalWp (braking : Bool) (current_velocity : ℝ)
    (waypoints : List Waypoint) (end_wp : ℕ) (i : ℕ) : Waypoint :=
  let index := i % waypoints.length
  let base := waypoints.getD index default
  { pos := base.pos
    orient := base.orient
    speed :=
      if ¬ braking then 15.0
      else
        let dist := distance base.pos (waypoints.getD end_wp default).pos
        if dist > STOP_BUFFER ∧ current_velocity < 3.0 then 3.0
        else if dist ≤ STOP_BUFFER then 0.0
        else if current_velocity - (i : ℝ) > 3.0 then current_velocity - (i : ℝ) * 0.5
        else 3.0 }

/-- Embedding of `WaypointUpdater.get_final_waypoints`: iterate the loop body
over `range(start_wp, end_wp)` and collect the appended waypoints. -/
noncomputable def get_final_waypoints (braking : Bool) (current_velocity : ℝ)
    (waypoints : List Waypoint) (start_wp end_wp : ℕ) : List Waypoint :=
  (List.range' start_wp (end_wp - start_wp)).map
    (mkFinalWp braking current_velocity waypoints end_wp)

/-- Python list indexing as used for `wpts[traffic_wp]`: a negative index
counts from the end of the list. -/
noncomputable def pyGet (ws : List Waypoint) (i : ℤ) : Waypoint :=
  if 0 ≤ i then ws.getD i.toNat default else ws.getD (ws.length - (-i).toNat) default

/-- The mutable node state read and written by the tick: `base_waypoints` and
`current_pose` are optional because the source guards the tick with
`hasattr`; `current_velocity`, `traffic_waypoint` and `braking` are set in
`__init__` and updated by callbacks. -/
structure UpdaterState where
  base_waypoints : Option (List Waypoint)
  current_pose : Option Pose
  current_velocity : ℝ
  traffic_waypoint : ℤ
  braking : Bool

/-- Embedding of one call of `WaypointUpdater.loop`: returns the successor
state together with the published waypoint list (`none` when the readiness
guard fails and nothing is published). -/
noncomputable def loop (s : UpdaterState) : UpdaterState × Option (List Waypoint) :=
  match s.base_waypoints, s.current_pose with
  | some wpts, some pose =>
    let next_wp := get_next_waypoint pose wpts
    let traffic_wp := s.traffic_waypoint
    let tl_dist := distance pose.pos (pyGet wpts traffic_wp).pos
    let min_stopping_dist := s.current_velocity ^ 2 / (2.0 * MAX_DECEL) + STOP_BUFFER
    if traffic_wp = -1 then
      ({ s with braking := false },
        some (get_final_waypoints false s.current_velocity wpts next_wp
          (next_wp + LOOKAHEAD_WPS)))
    else if s.braking = false ∧ tl_dist < min_stopping_dist then
      (s, some (get_final_waypoints s.braking s.current_velocity wpts next_wp
          (next_wp + LOOKAHEAD_WPS)))
    else
      ({ s with braking := true },
        some (get_final_waypoints true s.current_velocity wpts next_wp
          traffic_wp.toNat))
  | _, _ => (s, none)

/-- A straight path along the x-axis at 1 m spacing, used by the scenarios of
the specification. -/
noncomputable def straightPath (n : ℕ) : List Waypoint :=
  (List.range n).map fun (j : ℕ) =>
    { pos := { x := (j : ℝ), y := 0, z := 0 }, orient := default, speed := 0 }

/-- The vehicle pose at `x = a` on the straight path, facing along the x-axis
(identity quaternion, yaw 0). -/
noncomputable def poseAt (a : ℝ) : Pose :=
  { pos := { x := a, y := 0, z := 0 }, orient := default }

/-- A ready node state on a straight path of `n` waypoints, vehicle at the
origin, velocity `v`, stop index `t`, braking flag `b`. -/
noncomputable def straightState (n t : ℕ) (v : ℝ) (b : Bool) : UpdaterState :=
  { base_waypoints := some (straightPath n)
    current_pose := some (poseAt 0)
    current_velocity := v
    traffic_waypoint := (t : ℤ)
    braking := b }

/-- Scenario A of the specification: 300 straight waypoints, vehicle at
`x = 0` with velocity 5.0, stop index 200, not yet braking. -/
noncomputable def stateA : UpdaterState := straightState 300 200 5.0 false

/-- The speed profile that Scenario A actually produces (spec wording amended
to the code: the tick commits to braking, and for offset `k` of the window the
assigned speed is 5.0 at `k = 0`, 4.5 at `k = 1`, 3.0 up to `k = 194`, and 0
within the 5 m stop buffer, `k ≥ 195`). -/
noncomputable def scenarioASpeeds (k : ℕ) : ℝ :=
  if 195 ≤ k then 0 else if k = 0 then 5 else if k = 1 then 4.5 else 3

/-- A ready state whose stop signal is absent (`-1`), used to exercise the
cruise branch. -/
noncomputable def resumeState : UpdaterState :=
  { base_waypoints := some (straightPath 1)
    current_pose := some (poseAt 0)
    current_velocity := 0
    traffic_waypoint := -1
    braking := false }

/-- A ready state that is already braking with the stop signal present. -/
noncomputable def stickyState : UpdaterState := straightState 1 0 0 true

/-- A state before the path and the pose have been received. -/
noncomputable def notReadyState : UpdaterState :=
  { base_waypoints := none
    current_pose := none
    current_velocity := 0
    traffic_waypoint := -1
    braking := false }

/-- A single waypoint at the origin. -/
noncomputable def originWp : Waypoint :=
  { pos := { x := 0, y := 0, z := 0 }, orient := default, speed := 0 }

/-- A pose at `x = 1` facing along the positive x-axis, so the origin waypoint
is behind the vehicle. -/
noncomputable def behindPose : Pose :=
  { pos := { x := 1, y := 0, z := 0 }, orient := default }

/-- Two waypoints at the same position: a distance tie. -/
noncomputable def tiePath : List Waypoint := [originWp, originWp]

end WU

namespace WU

theorem distance_nonneg (p q : Point) : 0 ≤ distance p q := Real.sqrt_nonneg _

theorem distance_straight (a b : ℝ) :
    distance { x := a, y := 0, z := 0 } { x := b, y := 0, z := 0 } = |a - b| := by
  unfold distance
  simp only
  rw [show (a - b) * (a - b) + (0 - (0 : ℝ)) * (0 - 0) + (0 - (0 : ℝ)) * (0 - 0)
      = (a - b) ^ 2 by ring]
  exact Real.sqrt_sq_eq_abs _

theorem straightPath_length (n : ℕ) : (straightPath n).length = n := by
  unfold straightPath
  rw [List.length_map, List.length_range]

theorem straightPath_ne_nil (n : ℕ) (h : 0 < n) : straightPath n ≠ [] := by
  apply List.ne_nil_of_length_pos
  rw [straightPath_length]
  exact h

theorem straightPath_getD (n j : ℕ) (h : j < n) :
    (straightPath n).getD j default =
      { pos := { x := (j : ℝ), y := 0, z := 0 }, orient := default, speed := 0 } := by
  have hlen : j < (straightPath n).length := by rw [straightPath_length]; exact h
  rw [List.getD_eq_getElem _ _ hlen]
  unfold straightPath
  rw [List.getElem_map, List.getElem_range]

theorem distance_straightPath (n j e : ℕ) (hj : j < n) (he : e < n) :
    distance ((straightPath n).getD j default).pos ((straightPath n).getD e default).pos
      = |(j : ℝ) - (e : ℝ)| := by
  rw [straightPath_getD n j hj, straightPath_getD n e he]
  exact distance_straight _ _

end WU

namespace WU

theorem closestGo_spec (p : Point) (ws : List Waypoint) :
    ∀ (i : ℕ) (bd : ℝ) (bi : ℕ),
      (closestGo p ws i bd bi).1 ≤ bd ∧
      (∀ k, ∀ hk : k < ws.length, (closestGo p ws i bd bi).1 ≤ distance p ws[k].pos) ∧
      (((closestGo p ws i bd bi).2 = bi ∧ (closestGo p ws i bd bi).1 = bd) ∨
        ∃ k, ∃ hk : k < ws.length, (closestGo p ws i bd bi).2 = i + k ∧
          (closestGo p ws i bd bi).1 = distance p ws[k].pos ∧
          distance p ws[k].pos < bd ∧
          ∀ j, ∀ hj : j < k, (closestGo p ws i bd bi).1 < distance p ws[j].pos) := by
  induction ws with
  | nil =>
    intro i bd bi
    refine ⟨le_refl _, ?_, Or.inl ⟨rfl, rfl⟩⟩
    intro k hk
    exact absurd hk (Nat.not_lt_zero k)
  | cons w rest ih =>
    intro i bd bi
    simp only [closestGo]
    by_cases hcmp : distance p w.pos < bd
    · rw [if_pos hcmp]
      obtain ⟨h1, h2, h3⟩ := ih (i + 1) (distance p w.pos) i
      refine ⟨h1.trans hcmp.le, ?_, ?_⟩
      · intro k hk
        match k with
        | 0 => simpa using h1
        | k + 1 =>
          have hk' : k < rest.length := by simpa using hk
          simpa using h2 k hk'
      · rcases h3 with ⟨he, hv⟩ | ⟨k, hk, he, hv, hlt, hstr⟩
        · refine Or.inr ⟨0, Nat.succ_pos _, by simpa using he, ?_, ?_, ?_⟩
          · simpa using hv
          · simpa using hcmp
          · intro j hj
            exact absurd hj (Nat.not_lt_zero j)
        · refine Or.inr ⟨k + 1, by simpa using hk, ?_, ?_, ?_, ?_⟩
          · rw [he]; omega
          · simpa using hv
          · simpa using hlt.trans hcmp
          · intro j hj
            match j with
            | 0 =>
              rw [hv]
              simpa using hlt
            | j + 1 =>
              have hj' : j < k := by omega
              simpa using hstr j hj'
    · rw [if_neg hcmp]
      obtain ⟨h1, h2, h3⟩ := ih (i + 1) bd bi
      have hbd : bd ≤ distance p w.pos := le_of_not_lt hcmp
      refine ⟨h1, ?_, ?_⟩
      · intro k hk
        match k with
        | 0 => simpa using h1.trans hbd
        | k + 1 =>
          have hk' : k < rest.length := by simpa using hk
          simpa using h2 k hk'
      · rcases h3 with ⟨he, hv⟩ | ⟨k, hk, he, hv, hlt, hstr⟩
        · exact Or.inl ⟨he, hv⟩
        · refine Or.inr ⟨k + 1, by simpa using hk, ?_, ?_, ?_, ?_⟩
          · rw [he]; omega
          · simpa using hv
          · simpa using hlt
          · intro j hj
            match j with
            | 0 =>
              rw [hv]
              simpa using hlt.trans_le hbd
            | j + 1 =>
              have hj' : j < k := by omega
              simpa using hstr j hj'

theorem get_closest_spec (p : Point) (ws : List Waypoint) (hne : ws ≠ []) :
    get_closest_waypoint p ws < ws.length ∧
    (∀ j, j < ws.length →
      distance p ((ws.getD (get_closest_waypoint p ws) default).pos)
        ≤ distance p ((ws.getD j default).pos)) ∧
    (∀ j, j < get_closest_waypoint p ws →
      distance p ((ws.getD (get_closest_waypoint p ws) default).pos)
        < distance p ((ws.getD j default).pos)) := by
  match ws with
  | [] => exact absurd rfl hne
  | w :: rest =>
    obtain ⟨h1, h2, h3⟩ := closestGo_spec p rest 1 (distance p w.pos) 0
    have hg : get_closest_waypoint p (w :: rest)
        = (closestGo p rest 1 (distance p w.pos) 0).2 := rfl
    rcases h3 with ⟨he, hv⟩ | ⟨k, hk, he, hv, hlt, hstr⟩
    · refine ⟨?_, ?_, ?_⟩
      · rw [hg, he]; exact Nat.succ_pos _
      · intro j hj
        rw [hg, he]
        match j with
        | 0 => exact le_refl _
        | j + 1 =>
          have hj' : j < rest.length := by simpa using hj
          rw [List.getD_cons_zero, List.getD_cons_succ,
            List.getD_eq_getElem _ _ hj']
          calc distance p w.pos = (closestGo p rest 1 (distance p w.pos) 0).1 := hv.symm
            _ ≤ _ := h2 j hj'
      · intro j hj
        rw [hg, he] at hj
        exact absurd hj (Nat.not_lt_zero j)
    · have hglen : get_closest_waypoint p (w :: rest) = 1 + k := by rw [hg, he]
      have hd : (w :: rest).getD (get_closest_waypoint p (w :: rest)) default = rest[k] := by
        rw [hglen, Nat.add_comm, List.getD_cons_succ, List.getD_eq_getElem _ _ hk]
      refine ⟨?_, ?_, ?_⟩
      · rw [hglen]
        simp only [List.length_cons]
        omega
      · intro j hj
        rw [hd]
        match j with
        | 0 =>
          rw [List.getD_cons_zero]
          exact hlt.le
        | j + 1 =>
          have hj' : j < rest.length := by simpa using hj
          rw [List.getD_cons_succ, List.getD_eq_getElem _ _ hj']
          calc distance p rest[k].pos
              = (closestGo p rest 1 (distance p w.pos) 0).1 := hv.symm
            _ ≤ _ := h2 j hj'
      · intro j hj
        rw [hglen] at hj
        rw [hd]
        match j with
        | 0 =>
          rw [List.getD_cons_zero]
          exact hlt
        | j + 1 =>
          have hj' : j < k := by omega
          rw [List.getD_cons_succ, List.getD_eq_getElem _ _ (hj'.trans hk)]
          calc distance p rest[k].pos
              = (closestGo p rest 1 (distance p w.pos) 0).1 := hv.symm
            _ < _ := hstr j hj'

end WU

namespace WU

theorem get_closest_eq_of_zero (p : Point) (ws : List Waypoint) (m : ℕ) (hne : ws ≠ [])
    (hm : m < ws.length)
    (hdm : distance p ((ws.getD m default).pos) = 0)
    (hbefore : ∀ j, j < m → 0 < distance p ((ws.getD j default).pos)) :
    get_closest_waypoint p ws = m := by
  obtain ⟨hb, hmin, hstr⟩ := get_closest_spec p ws hne
  have hr0 : distance p ((ws.getD (get_closest_waypoint p ws) default).pos) = 0 := by
    have h1 := hmin m hm
    have h2 := distance_nonneg p ((ws.getD (get_closest_waypoint p ws) default).pos)
    rw [hdm] at h1
    linarith
  rcases lt_trichotomy (get_closest_waypoint p ws) m with h | h | h
  · have := hbefore _ h
    rw [hr0] at this
    exact absurd this (lt_irrefl 0)
  · exact h
  · have := hstr m h
    rw [hr0, hdm] at this
    exact absurd this (lt_irrefl 0)

theorem get_closest_straight (n m : ℕ) (hm : m < n) :
    get_closest_waypoint (poseAt (m : ℝ)).pos (straightPath n) = m := by
  apply get_closest_eq_of_zero _ _ m
    (straightPath_ne_nil n (lt_of_le_of_lt (Nat.zero_le m) hm))
  · rw [straightPath_length]; exact hm
  · rw [straightPath_getD n m hm]
    show distance { x := (m : ℝ), y := 0, z := 0 } { x := (m : ℝ), y := 0, z := 0 } = 0
    rw [distance_straight]
    simp
  · intro j hj
    have hjn : j < n := hj.trans hm
    rw [straightPath_getD n j hjn]
    show 0 < distance { x := (m : ℝ), y := 0, z := 0 } { x := (j : ℝ), y := 0, z := 0 }
    rw [distance_straight, abs_pos, sub_ne_zero]
    exact fun h => absurd (Nat.cast_injective h).symm hj.ne

theorem atan2_zero_zero : atan2 0 0 = 0 := by
  unfold atan2
  norm_num

theorem atan2_zero_one : atan2 0 1 = 0 := by
  unfold atan2
  norm_num

theorem atan2_zero_negone : atan2 0 (-1) = Real.pi := by
  unfold atan2
  rw [if_neg (by norm_num), if_pos (by norm_num : (-1 : ℝ) < 0 ∧ (0 : ℝ) ≤ 0)]
  norm_num

theorem quaternionYaw_default : quaternionYaw default = 0 := by
  unfold quaternionYaw
  show atan2 (2 * (1 * 0 + 0 * 0)) (1 - 2 * (0 * 0 + 0 * 0)) = 0
  rw [show (2 : ℝ) * (1 * 0 + 0 * 0) = 0 by norm_num,
    show (1 : ℝ) - 2 * (0 * 0 + 0 * 0) = 1 by norm_num]
  exact atan2_zero_one

theorem get_next_eq_closest (pose : Pose) (ws : List Waypoint)
    (hx : ((ws.getD (get_closest_waypoint pose.pos ws) default).pos.x = pose.pos.x))
    (hy : ((ws.getD (get_closest_waypoint pose.pos ws) default).pos.y = pose.pos.y))
    (ho : quaternionYaw pose.orient = 0) :
    get_next_waypoint pose ws = get_closest_waypoint pose.pos ws := by
  show (if |quaternionYaw pose.orient -
        atan2 ((ws.getD (get_closest_waypoint pose.pos ws) default).pos.y - pose.pos.y)
          ((ws.getD (get_closest_waypoint pose.pos ws) default).pos.x - pose.pos.x)|
        > Real.pi / 4
      then get_closest_waypoint pose.pos ws + 1 else get_closest_waypoint pose.pos ws)
      = get_closest_waypoint pose.pos ws
  rw [hx, hy, ho, sub_self, sub_self, atan2_zero_zero]
  rw [if_neg]
  simp only [sub_zero, abs_zero, gt_iff_lt, not_lt]
  positivity

theorem get_next_straight (n m : ℕ) (hm : m < n) :
    get_next_waypoint (poseAt (m : ℝ)) (straightPath n) = m := by
  rw [get_next_eq_closest (poseAt (m : ℝ)) (straightPath n), get_closest_straight n m hm]
  · rw [get_closest_straight n m hm, straightPath_getD n m hm]; rfl
  · rw [get_closest_straight n m hm, straightPath_getD n m hm]; rfl
  · exact quaternionYaw_default

end WU

namespace WU

theorem get_final_length (b : Bool) (v : ℝ) (ws : List Waypoint) (s e : ℕ) :
    (get_final_waypoints b v ws s e).length = e - s := by
  unfold get_final_waypoints
  rw [List.length_map, List.length_range']

theorem get_final_getD (b : Bool) (v : ℝ) (ws : List Waypoint) (s e k : ℕ)
    (h : k < e - s) :
    (get_final_waypoints b v ws s e).getD k default = mkFinalWp b v ws e (s + k) := by
  have hlen : k < (get_final_waypoints b v ws s e).length := by
    rw [get_final_length]
    exact h
  rw [List.getD_eq_getElem _ _ hlen]
  unfold get_final_waypoints
  simp only [List.getElem_map, List.getElem_range', Nat.one_mul]

theorem mkFinalWp_pos (b : Bool) (v : ℝ) (ws : List Waypoint) (e i : ℕ) :
    (mkFinalWp b v ws e i).pos = (ws.getD (i % ws.length) default).pos := rfl

theorem mkFinalWp_orient (b : Bool) (v : ℝ) (ws : List Waypoint) (e i : ℕ) :
    (mkFinalWp b v ws e i).orient = (ws.getD (i % ws.length) default).orient := rfl

theorem mkFinalWp_speed_cruise (v : ℝ) (ws : List Waypoint) (e i : ℕ) :
    (mkFinalWp false v ws e i).speed = 15.0 := rfl

theorem mkFinalWp_speed_braking (v : ℝ) (ws : List Waypoint) (e i : ℕ) :
    (mkFinalWp true v ws e i).speed =
      (if distance ((ws.getD (i % ws.length) default).pos) ((ws.getD e default).pos)
            > STOP_BUFFER ∧ v < 3.0 then 3.0
       else if distance ((ws.getD (i % ws.length) default).pos) ((ws.getD e default).pos)
            ≤ STOP_BUFFER then 0.0
       else if v - (i : ℝ) > 3.0 then v - (i : ℝ) * 0.5
       else 3.0) := rfl

theorem loop_ready (s : UpdaterState) (wpts : List Waypoint) (pose : Pose)
    (hw : s.base_waypoints = some wpts) (hp : s.current_pose = some pose) :
    loop s =
      (if s.traffic_waypoint = -1 then
        ({ s with braking := false },
          some (get_final_waypoints false s.current_velocity wpts
            (get_next_waypoint pose wpts) (get_next_waypoint pose wpts + LOOKAHEAD_WPS)))
      else if s.braking = false ∧ distance pose.pos (pyGet wpts s.traffic_waypoint).pos
          < s.current_velocity ^ 2 / (2.0 * MAX_DECEL) + STOP_BUFFER then
        (s, some (get_final_waypoints s.braking s.current_velocity wpts
          (get_next_waypoint pose wpts) (get_next_waypoint pose wpts + LOOKAHEAD_WPS)))
      else
        ({ s with braking := true },
          some (get_final_waypoints true s.current_velocity wpts
            (get_next_waypoint pose wpts) s.traffic_waypoint.toNat))) := by
  unfold loop
  rw [hw, hp]

theorem loop_cruise_reset (s : UpdaterState) (wpts : List Waypoint) (pose : Pose)
    (hw : s.base_waypoints = some wpts) (hp : s.current_pose = some pose)
    (ht : s.traffic_waypoint = -1) :
    loop s = ({ s with braking := false },
      some (get_final_waypoints false s.current_velocity wpts
        (get_next_waypoint pose wpts) (get_next_waypoint pose wpts + LOOKAHEAD_WPS))) := by
  rw [loop_ready s wpts pose hw hp, if_pos ht]

theorem loop_keep_cruise (s : UpdaterState) (wpts : List Waypoint) (pose : Pose)
    (hw : s.base_waypoints = some wpts) (hp : s.current_pose = some pose)
    (ht : ¬ s.traffic_waypoint = -1) (hb : s.braking = false)
    (hlt : distance pose.pos (pyGet wpts s.traffic_waypoint).pos
      < s.current_velocity ^ 2 / (2.0 * MAX_DECEL) + STOP_BUFFER) :
    loop s = (s, some (get_final_waypoints false s.current_velocity wpts
      (get_next_waypoint pose wpts) (get_next_waypoint pose wpts + LOOKAHEAD_WPS))) := by
  rw [loop_ready s wpts pose hw hp, if_neg ht, if_pos (⟨hb, hlt⟩ :
    s.braking = false ∧ distance pose.pos (pyGet wpts s.traffic_waypoint).pos
      < s.current_velocity ^ 2 / (2.0 * MAX_DECEL) + STOP_BUFFER), hb]

theorem loop_brake (s : UpdaterState) (wpts : List Waypoint) (pose : Pose)
    (hw : s.base_waypoints = some wpts) (hp : s.current_pose = some pose)
    (ht : ¬ s.traffic_waypoint = -1)
    (hc : ¬ (s.braking = false ∧ distance pose.pos (pyGet wpts s.traffic_waypoint).pos
      < s.current_velocity ^ 2 / (2.0 * MAX_DECEL) + STOP_BUFFER)) :
    loop s = ({ s with braking := true },
      some (get_final_waypoints true s.current_velocity wpts
        (get_next_waypoint pose wpts) s.traffic_waypoint.toNat)) := by
  rw [loop_ready s wpts pose hw hp, if_neg ht, if_neg hc]

theorem loop_not_ready (s : UpdaterState)
    (h : s.base_waypoints = none ∨ s.current_pose = none) :
    loop s = (s, none) := by
  unfold loop
  rcases h with h | h
  · rw [h]
  · rw [h]
    match hb : s.base_waypoints with
    | none => rfl
    | some wpts => rfl

end WU

namespace WU

theorem next_origin (n : ℕ) (hn : 0 < n) :
    get_next_waypoint (poseAt 0) (straightPath n) = 0 := by
  have h := get_next_straight n 0 hn
  rwa [Nat.cast_zero] at h

theorem tl_dist_straight (n t : ℕ) (ht : t < n) :
    distance (poseAt 0).pos (pyGet (straightPath n) (t : ℤ)).pos = (t : ℝ) := by
  have hpy : pyGet (straightPath n) (t : ℤ) = (straightPath n).getD t default := by
    unfold pyGet
    rw [if_pos (Int.natCast_nonneg t), Int.toNat_natCast]
  rw [hpy, straightPath_getD n t ht]
  show distance { x := (0 : ℝ), y := 0, z := 0 } { x := (t : ℝ), y := 0, z := 0 } = (t : ℝ)
  rw [distance_straight, zero_sub, abs_neg, abs_of_nonneg (Nat.cast_nonneg t)]

theorem loop_brake_straight (n t : ℕ) (v : ℝ) (hn : 0 < n) (ht : t < n)
    (hge : ¬ ((t : ℝ) < v ^ 2 / (2.0 * MAX_DECEL) + STOP_BUFFER)) :
    loop (straightState n t v false)
      = ({ straightState n t v false with braking := true },
         some (get_final_waypoints true v (straightPath n) 0 t)) := by
  have htraffic : ¬ ((straightState n t v false).traffic_waypoint = -1) := by
    show ¬ ((t : ℤ) = -1)
    intro h
    have h0 : (0 : ℤ) ≤ (t : ℤ) := Int.natCast_nonneg t
    rw [h] at h0
    norm_num at h0
  have hdist : distance (poseAt 0).pos
      (pyGet (straightPath n) (straightState n t v false).traffic_waypoint).pos = (t : ℝ) :=
    tl_dist_straight n t ht
  have hc : ¬ ((straightState n t v false).braking = false ∧
      distance (poseAt 0).pos
        (pyGet (straightPath n) (straightState n t v false).traffic_waypoint).pos
        < (straightState n t v false).current_velocity ^ 2 / (2.0 * MAX_DECEL) + STOP_BUFFER) := by
    intro hcc
    apply hge
    have h2 := hcc.2
    rw [hdist] at h2
    exact h2
  rw [loop_brake (straightState n t v false) (straightPath n) (poseAt 0) rfl rfl htraffic hc,
    next_origin n hn]
  show (_, some (get_final_waypoints true v (straightPath n) 0 ((t : ℤ)).toNat)) = _
  rw [Int.toNat_natCast]

theorem loop_resume_eval :
    loop resumeState = ({ resumeState with braking := false },
      some (get_final_waypoints false 0 (straightPath 1) 0 200)) := by
  rw [loop_cruise_reset resumeState (straightPath 1) (poseAt 0) rfl rfl rfl,
    next_origin 1 (by norm_num)]
  rfl

theorem tie_first : get_closest_waypoint { x := 0, y := 0, z := 0 } tiePath = 0 := by
  show (closestGo { x := 0, y := 0, z := 0 } [originWp] 1
    (distance { x := 0, y := 0, z := 0 } originWp.pos) 0).2 = 0
  simp only [closestGo]
  rw [if_neg (lt_irrefl _)]

end WU

namespace WU

theorem scenarioA_speed_eval (k : ℕ) (hk : k < 200) :
    (mkFinalWp true 5.0 (straightPath 300) 200 k).speed = scenarioASpeeds k := by
  rw [mkFinalWp_speed_braking]
  have hmod : k % (straightPath 300).length = k := by
    rw [straightPath_length]
    omega
  rw [hmod, distance_straightPath 300 k 200 (by omega) (by norm_num)]
  have hkr : (k : ℝ) < 200 := by exact_mod_cast hk
  have habs : |(k : ℝ) - ((200 : ℕ) : ℝ)| = 200 - (k : ℝ) := by
    push_cast
    rw [abs_of_nonpos (by linarith)]
    ring
  rw [habs, if_neg (fun hcc => absurd hcc.2 (by norm_num))]
  unfold scenarioASpeeds STOP_BUFFER
  by_cases h195 : 195 ≤ k
  · have h195r : (195 : ℝ) ≤ (k : ℝ) := by exact_mod_cast h195
    rw [if_pos (by linarith : 200 - (k : ℝ) ≤ 5.0), if_pos h195]
    norm_num
  · rw [if_neg h195]
    have hle : k ≤ 194 := by omega
    have hler : (k : ℝ) ≤ 194 := by exact_mod_cast hle
    rw [if_neg (by linarith : ¬ (200 - (k : ℝ) ≤ 5.0))]
    rcases Nat.lt_or_ge k 2 with h2 | h2
    · interval_cases k
      · rw [if_pos (by push_cast; norm_num), if_pos rfl]
        push_cast
        norm_num
      · rw [if_pos (by push_cast; norm_num), if_neg (by norm_num), if_pos rfl]
        push_cast
        norm_num
    · have h2r : (2 : ℝ) ≤ (k : ℝ) := by exact_mod_cast h2
      rw [if_neg (by linarith : ¬ ((5.0 : ℝ) - (k : ℝ) > 3.0)),
        if_neg (by omega : ¬ k = 0), if_neg (by omega : ¬ k = 1)]
      norm_num

theorem scenarioA_map :
    (get_final_waypoints true 5.0 (straightPath 300) 0 200).map (fun wp => wp.speed)
      = (List.range 200).map scenarioASpeeds := by
  unfold get_final_waypoints
  rw [List.map_map, show (200 : ℕ) - 0 = 200 from rfl, ← List.range_eq_range']
  apply List.map_congr_left
  intro k hk
  rw [List.mem_range] at hk
  show (mkFinalWp true 5.0 (straightPath 300) 200 k).speed = scenarioASpeeds k
  exact scenarioA_speed_eval k hk

theorem scenarioA_eval :
    loop stateA = ({ stateA with braking := true },
      some (get_final_waypoints true 5.0 (straightPath 300) 0 200)) := by
  exact loop_brake_straight 300 200 5.0 (by norm_num) (by norm_num)
    (by push_cast; norm_num [MAX_DECEL, STOP_BUFFER])

end WU

namespace WU

theorem get_final_speed_nonneg (b : Bool) (v : ℝ) (ws : List Waypoint) (s e : ℕ) :
    ∀ wp ∈ get_final_waypoints b v ws s e, 0 ≤ wp.speed := by
  intro wp hwp
  unfold get_final_waypoints at hwp
  rw [List.mem_map] at hwp
  obtain ⟨i, hi, rfl⟩ := hwp
  match b with
  | false =>
    rw [mkFinalWp_speed_cruise]
    norm_num
  | true =>
    rw [mkFinalWp_speed_braking]
    split_ifs with h1 h2 h3
    · norm_num
    · norm_num
    · have hi0 : (0 : ℝ) ≤ (i : ℝ) := Nat.cast_nonneg i
      linarith
    · norm_num

/-- C1 (amended): per-tick braking decision.  On a ready tick with the stop
signal present (`traffic_waypoint ≠ -1`) and the state CRUISING
(`braking = false`), if the distance from the vehicle position to the stop
waypoint is strictly less than
`min_stopping_distance(current_velocity) = v²/(2·4.0) + 5.0` then the state
stays CRUISING and a full-lookahead cruise window is published; otherwise
(distance at least the threshold) the state becomes BRAKING and the braking
window `[next_wp, stop_wp)` is published.  The original claim had the two
branches swapped. -/
theorem c1_braking_decision (s : UpdaterState) (wpts : List Waypoint) (pose : Pose)
    (hw : s.base_waypoints = some wpts) (hp : s.current_pose = some pose)
    (hb : s.braking = false) (ht : ¬ s.traffic_waypoint = -1) :
    (distance pose.pos (pyGet wpts s.traffic_waypoint).pos
        < s.current_velocity ^ 2 / (2.0 * MAX_DECEL) + STOP_BUFFER →
      ((loop s).1).braking = false ∧
      (loop s).2 = some (get_final_waypoints false s.current_velocity wpts
        (get_next_waypoint pose wpts) (get_next_waypoint pose wpts + LOOKAHEAD_WPS))) ∧
    (¬ distance pose.pos (pyGet wpts s.traffic_waypoint).pos
        < s.current_velocity ^ 2 / (2.0 * MAX_DECEL) + STOP_BUFFER →
      ((loop s).1).braking = true ∧
      (loop s).2 = some (get_final_waypoints true s.current_velocity wpts
        (get_next_waypoint pose wpts) s.traffic_waypoint.toNat)) := by
  constructor
  · intro hlt
    rw [loop_keep_cruise s wpts pose hw hp ht hb hlt]
    exact ⟨hb, rfl⟩
  · intro hge
    rw [loop_brake s wpts pose hw hp ht (fun hcc => hge hcc.2)]
    exact ⟨rfl, rfl⟩

/-- Witness for C1 at the concrete ready state `straightState 10 9 0 false`
(10 straight waypoints, vehicle at the origin, velocity 0, stop index 9). -/
theorem c1_braking_decision_witness :
    (straightState 10 9 0 false).base_waypoints = some (straightPath 10) ∧
    (straightState 10 9 0 false).current_pose = some (poseAt 0) ∧
    (straightState 10 9 0 false).braking = false ∧
    ¬ (straightState 10 9 0 false).traffic_waypoint = -1 ∧
    ((distance (poseAt 0).pos
        (pyGet (straightPath 10) (straightState 10 9 0 false).traffic_waypoint).pos
        < (straightState 10 9 0 false).current_velocity ^ 2 / (2.0 * MAX_DECEL) + STOP_BUFFER →
      ((loop (straightState 10 9 0 false)).1).braking = false ∧
      (loop (straightState 10 9 0 false)).2
        = some (get_final_waypoints false (straightState 10 9 0 false).current_velocity
          (straightPath 10) (get_next_waypoint (poseAt 0) (straightPath 10))
          (get_next_waypoint (poseAt 0) (straightPath 10) + LOOKAHEAD_WPS))) ∧
    (¬ distance (poseAt 0).pos
        (pyGet (straightPath 10) (straightState 10 9 0 false).traffic_waypoint).pos
        < (straightState 10 9 0 false).current_velocity ^ 2 / (2.0 * MAX_DECEL) + STOP_BUFFER →
      ((loop (straightState 10 9 0 false)).1).braking = true ∧
      (loop (straightState 10 9 0 false)).2
        = some (get_final_waypoints true (straightState 10 9 0 false).current_velocity
          (straightPath 10) (get_next_waypoint (poseAt 0) (straightPath 10))
          (straightState 10 9 0 false).traffic_waypoint.toNat))) := by
  refine ⟨rfl, rfl, rfl, by norm_num [straightState], ?_⟩
  exact c1_braking_decision (straightState 10 9 0 false) (straightPath 10) (poseAt 0)
    rfl rfl rfl (by norm_num [straightState])

/-- C1: counterexample to the claim as stated.  A ready CRUISING tick with the
stop signal present at distance 9 from the stop while
`min_stopping_distance(0) = 5`, so the distance is at least the threshold; the
claim predicts the state stays CRUISING, but the code commits to BRAKING. -/
theorem c1_counterexample :
    (straightState 10 9 0 false).braking = false ∧
    ¬ (straightState 10 9 0 false).traffic_waypoint = -1 ∧
    ¬ (distance (poseAt 0).pos (pyGet (straightPath 10) ((9 : ℕ) : ℤ)).pos
        < (0 : ℝ) ^ 2 / (2.0 * MAX_DECEL) + STOP_BUFFER) ∧
    ((loop (straightState 10 9 0 false)).1).braking = true := by
  refine ⟨rfl, by norm_num [straightState], ?_, ?_⟩
  · rw [tl_dist_straight 10 9 (by norm_num)]
    push_cast
    norm_num [MAX_DECEL, STOP_BUFFER]
  · rw [loop_brake_straight 10 9 0 (by norm_num) (by norm_num)
      (by push_cast; norm_num [MAX_DECEL, STOP_BUFFER])]

/-- C2: sticky braking.  On any ready state, if the machine is BRAKING and the
stop signal stays present the tick leaves it BRAKING, whatever the current
pose, velocity or geometry are; and on any tick where the stop signal is
absent (`-1`) the state after the tick is CRUISING. -/
theorem c2_sticky_braking (s : UpdaterState)
    (hready : s.base_waypoints.isSome = true ∧ s.current_pose.isSome = true) :
    (s.braking = true → ¬ s.traffic_waypoint = -1 → ((loop s).1).braking = true) ∧
    (s.traffic_waypoint = -1 → ((loop s).1).braking = false) := by
  obtain ⟨hw0, hp0⟩ := hready
  obtain ⟨wpts, hw⟩ := Option.isSome_iff_exists.mp hw0
  obtain ⟨pose, hp⟩ := Option.isSome_iff_exists.mp hp0
  constructor
  · intro hb ht
    have hc : ¬ (s.braking = false ∧
        distance pose.pos (pyGet wpts s.traffic_waypoint).pos
          < s.current_velocity ^ 2 / (2.0 * MAX_DECEL) + STOP_BUFFER) := by
      intro hcc
      rw [hb] at hcc
      simp at hcc
    rw [loop_brake s wpts pose hw hp ht hc]
  · intro ht
    rw [loop_cruise_reset s wpts pose hw hp ht]

/-- Witness for C2 at the ready state `stickyState` (already braking, stop
signal present at index 0). -/
theorem c2_sticky_braking_witness :
    (stickyState.base_waypoints.isSome = true ∧ stickyState.current_pose.isSome = true) ∧
    ((stickyState.braking = true → ¬ stickyState.traffic_waypoint = -1 →
        ((loop stickyState).1).braking = true) ∧
      (stickyState.traffic_waypoint = -1 → ((loop stickyState).1).braking = false)) :=
  ⟨⟨rfl, rfl⟩, c2_sticky_braking stickyState ⟨rfl, rfl⟩⟩

/-- C8: readiness gate.  When the base waypoints or the pose have not yet been
received the tick publishes nothing and leaves the whole planner state
unchanged. -/
theorem c8_readiness_gate (s : UpdaterState)
    (h : s.base_waypoints = none ∨ s.current_pose = none) :
    loop s = (s, none) := loop_not_ready s h

/-- Witness for C8 at the initial state with no path and no pose. -/
theorem c8_readiness_gate_witness :
    (notReadyState.base_waypoints = none ∨ notReadyState.current_pose = none) ∧
    loop notReadyState = (notReadyState, none) :=
  ⟨Or.inl rfl, c8_readiness_gate notReadyState (Or.inl rfl)⟩

/-- C9: every waypoint of any published window has a non-negative target
speed: the cruise branch assigns 15.0, the creep and floor branches 3.0, the
stop branch 0, and the decay branch is positive because its guard gives
`current_velocity - i > 3` with `i ≥ 0`. -/
theorem c9_speeds_nonneg (s : UpdaterState) (w : List Waypoint)
    (h : (loop s).2 = some w) : ∀ wp ∈ w, 0 ≤ wp.speed := by
  cases hb : s.base_waypoints with
  | none =>
    rw [loop_not_ready s (Or.inl hb)] at h
    simp at h
  | some wpts =>
    cases hp : s.current_pose with
    | none =>
      rw [loop_not_ready s (Or.inr hp)] at h
      simp at h
    | some pose =>
      rw [loop_ready s wpts pose hb hp] at h
      split_ifs at h
      all_goals
        have hw := Option.some.inj h
      all_goals
        rw [← hw]
      all_goals
        exact get_final_speed_nonneg _ _ _ _ _

/-- Witness for C9 at the ready state `resumeState`, whose tick publishes a
cruise window. -/
theorem c9_speeds_nonneg_witness :
    (loop resumeState).2 = some (get_final_waypoints false 0 (straightPath 1) 0 200) ∧
    ∀ wp ∈ get_final_waypoints false 0 (straightPath 1) 0 200, 0 ≤ wp.speed := by
  have hpub : (loop resumeState).2
      = some (get_final_waypoints false 0 (straightPath 1) 0 200) := by
    rw [loop_resume_eval]
  exact ⟨hpub, c9_speeds_nonneg resumeState _ hpub⟩

end WU

namespace WU

/-- C3 (amended): braking speed rule.  For a braking window `[start, end)` the
offset-`k` output waypoint gets: creep speed 3.0 when its distance to the stop
waypoint exceeds 5.0 and the current velocity is below 3.0; 0 when the
distance is within 5.0; otherwise `current_velocity − i·0.5` when
`current_velocity − i > 3.0` and 3.0 when not, where `i = start + k` is the
absolute loop index — not the 0-based window offset the original claim used.
In particular the Scenario B waypoint at offset 0 gets speed 3.0, not 5.0. -/
theorem c3_braking_speed_rule (v : ℝ) (ws : List Waypoint) (s e k : ℕ)
    (h : k < e - s) :
    ((get_final_waypoints true v ws s e).getD k default).speed =
      (if distance ((ws.getD ((s + k) % ws.length) default).pos)
            ((ws.getD e default).pos) > STOP_BUFFER ∧ v < 3.0 then 3.0
       else if distance ((ws.getD ((s + k) % ws.length) default).pos)
            ((ws.getD e default).pos) ≤ STOP_BUFFER then 0.0
       else if v - ((s + k : ℕ) : ℝ) > 3.0 then v - ((s + k : ℕ) : ℝ) * 0.5
       else 3.0) := by
  rw [get_final_getD true v ws s e k h, mkFinalWp_speed_braking]

/-- Witness for C3 at the Scenario B window: path of 300 straight waypoints,
braking window `[194, 200)`, velocity 5.0, offset 0. -/
theorem c3_braking_speed_rule_witness :
    ((0 : ℕ) < 200 - 194) ∧
    ((get_final_waypoints true 5.0 (straightPath 300) 194 200).getD 0 default).speed =
      (if distance (((straightPath 300).getD ((194 + 0) % (straightPath 300).length) default).pos)
            (((straightPath 300).getD 200 default).pos) > STOP_BUFFER ∧ (5.0 : ℝ) < 3.0 then 3.0
       else if distance
            (((straightPath 300).getD ((194 + 0) % (straightPath 300).length) default).pos)
            (((straightPath 300).getD 200 default).pos) ≤ STOP_BUFFER then 0.0
       else if (5.0 : ℝ) - ((194 + 0 : ℕ) : ℝ) > 3.0 then (5.0 : ℝ) - ((194 + 0 : ℕ) : ℝ) * 0.5
       else 3.0) :=
  ⟨by norm_num, c3_braking_speed_rule 5.0 (straightPath 300) 194 200 0 (by norm_num)⟩

/-- C3: counterexample to the claim as stated.  In Scenario B (vehicle at
`x = 194`, velocity 5.0, stop index 200 on the straight path) the braking
window waypoint at offset 0 gets speed 3.0 — not the 5.0 the claim derives
from reading `i` as the 0-based window offset. -/
theorem c3_offset_counterexample :
    ((get_final_waypoints true 5.0 (straightPath 300) 194 200).getD 0 default).speed = 3.0 ∧
    (3.0 : ℝ) ≠ 5.0 := by
  constructor
  · rw [get_final_getD true 5.0 (straightPath 300) 194 200 0 (by norm_num),
      mkFinalWp_speed_braking]
    rw [show (194 + 0) % (straightPath 300).length = 194 by rw [straightPath_length]]
    rw [distance_straightPath 300 194 200 (by norm_num) (by norm_num)]
    have habs : |((194 : ℕ) : ℝ) - ((200 : ℕ) : ℝ)| = 6 := by
      push_cast
      rw [show (194 : ℝ) - 200 = -(6 : ℝ) by norm_num, abs_neg, abs_of_nonneg (by norm_num)]
    rw [habs]
    rw [if_neg (fun hcc => absurd hcc.2 (by norm_num)),
      if_neg (by norm_num [STOP_BUFFER]), if_neg (by push_cast; norm_num)]
  · norm_num

/-- C5: assembler window shape.  For a non-empty path and a window request
`[start, end)` with `end ≥ start`, the assembled window has exactly
`end − start` waypoints in ascending offset order, and the offset-`k` output
copies position and orientation from `path[(start + k) mod L]`. -/
theorem c5_window_shape (ws : List Waypoint) (s e : ℕ) (b : Bool) (v : ℝ)
    (hne : ws ≠ []) (hle : s ≤ e) :
    (get_final_waypoints b v ws s e).length = e - s ∧
    ∀ k, k < e - s →
      ((get_final_waypoints b v ws s e).getD k default).pos
          = (ws.getD ((s + k) % ws.length) default).pos ∧
      ((get_final_waypoints b v ws s e).getD k default).orient
          = (ws.getD ((s + k) % ws.length) default).orient := by
  refine ⟨get_final_length b v ws s e, ?_⟩
  intro k hk
  rw [get_final_getD b v ws s e k hk, mkFinalWp_pos, mkFinalWp_orient]
  exact ⟨rfl, rfl⟩

/-- Witness for C5 on a two-waypoint path with the wrapping window `[1, 4)`. -/
theorem c5_window_shape_witness :
    (straightPath 2 ≠ []) ∧ ((1 : ℕ) ≤ 4) ∧
    ((get_final_waypoints false 0 (straightPath 2) 1 4).length = 4 - 1 ∧
      ∀ k, k < 4 - 1 →
        ((get_final_waypoints false 0 (straightPath 2) 1 4).getD k default).pos
            = ((straightPath 2).getD ((1 + k) % (straightPath 2).length) default).pos ∧
        ((get_final_waypoints false 0 (straightPath 2) 1 4).getD k default).orient
            = ((straightPath 2).getD ((1 + k) % (straightPath 2).length) default).orient) :=
  ⟨straightPath_ne_nil 2 (by norm_num), by norm_num,
    c5_window_shape (straightPath 2) 1 4 false 0
      (straightPath_ne_nil 2 (by norm_num)) (by norm_num)⟩

/-- C10: speed gap in the braking profile.  Every waypoint of a braking window
either lies within the 5 m stop buffer of the stop waypoint and gets speed
exactly 0, or lies outside the buffer and gets speed at least 3.0 — no speed
strictly between 0 and 3.0 is ever produced. -/
theorem c10_braking_speed_gap (v : ℝ) (ws : List Waypoint) (s e k : ℕ)
    (h : k < e - s) :
    ((((get_final_waypoints true v ws s e).getD k default).speed = 0 ∧
      distance (((get_final_waypoints true v ws s e).getD k default).pos)
        ((ws.getD e default).pos) ≤ STOP_BUFFER) ∨
    (((get_final_waypoints true v ws s e).getD k default).speed ≥ 3.0 ∧
      distance (((get_final_waypoints true v ws s e).getD k default).pos)
        ((ws.getD e default).pos) > STOP_BUFFER)) := by
  rw [get_final_getD true v ws s e k h, mkFinalWp_pos, mkFinalWp_speed_braking]
  split_ifs with h1 h2 h3
  · exact Or.inr ⟨by norm_num, h1.1⟩
  · exact Or.inl ⟨by norm_num, h2⟩
  · refine Or.inr ⟨?_, lt_of_not_le h2⟩
    have hi : (0 : ℝ) ≤ ((s + k : ℕ) : ℝ) := Nat.cast_nonneg _
    linarith
  · exact Or.inr ⟨le_refl _, lt_of_not_le h2⟩

/-- Witness for C10 at the Scenario B braking window, offset 0. -/
theorem c10_braking_speed_gap_witness :
    ((0 : ℕ) < 200 - 194) ∧
    ((((get_final_waypoints true 5.0 (straightPath 300) 194 200).getD 0 default).speed = 0 ∧
      distance (((get_final_waypoints true 5.0 (straightPath 300) 194 200).getD 0 default).pos)
        (((straightPath 300).getD 200 default).pos) ≤ STOP_BUFFER) ∨
    (((get_final_waypoints true 5.0 (straightPath 300) 194 200).getD 0 default).speed ≥ 3.0 ∧
      distance (((get_final_waypoints true 5.0 (straightPath 300) 194 200).getD 0 default).pos)
        (((straightPath 300).getD 200 default).pos) > STOP_BUFFER)) :=
  ⟨by norm_num, c10_braking_speed_gap 5.0 (straightPath 300) 194 200 0 (by norm_num)⟩

end WU

namespace WU

/-- C4: counterexample to Scenario A as claimed.  With 300 straight waypoints,
vehicle at `x = 0`, velocity 5.0 and stop index 200, the distance to the stop
(200) is at least min_stopping_distance (8.125), yet the state does not stay
CRUISING: the tick sets the braking flag. -/
theorem c4_scenarioA_counterexample :
    stateA.braking = false ∧
    ¬ stateA.traffic_waypoint = -1 ∧
    distance (poseAt 0).pos (pyGet (straightPath 300) ((200 : ℕ) : ℤ)).pos
      ≥ 5.0 ^ 2 / (2.0 * MAX_DECEL) + STOP_BUFFER ∧
    ((loop stateA).1).braking = true := by
  refine ⟨rfl, by norm_num [stateA, straightState], ?_, ?_⟩
  · rw [tl_dist_straight 300 200 (by norm_num)]
    push_cast
    norm_num [MAX_DECEL, STOP_BUFFER]
  · rw [scenarioA_eval]

/-- C4 (amended): Scenario A.  The computed min_stopping_distance is 8.125 and
the distance to the stop is 200 ≥ 8.125, but under the code this very
comparison makes the tick commit to BRAKING (the branch direction of the claim is
inverted); the published window still has exactly 200 waypoints, whose speeds
follow the braking rule — 5.0 at offset 0, 4.5 at offset 1, 3.0 up to offset
194, and 0 inside the 5 m stop buffer (offsets 195 to 199) — rather than the
uniform 15.0 of the claim. -/
theorem c4_scenarioA_amended :
    (5.0 : ℝ) ^ 2 / (2.0 * MAX_DECEL) + STOP_BUFFER = 8.125 ∧
    distance (poseAt 0).pos (pyGet (straightPath 300) ((200 : ℕ) : ℤ)).pos = 200 ∧
    ((loop stateA).1).braking = true ∧
    ((loop stateA).2).map (fun w => w.map fun wp => wp.speed)
      = some ((List.range 200).map scenarioASpeeds) := by
  refine ⟨by norm_num [MAX_DECEL, STOP_BUFFER], ?_, ?_, ?_⟩
  · rw [tl_dist_straight 300 200 (by norm_num)]
    norm_num
  · rw [scenarioA_eval]
  · rw [scenarioA_eval]
    show some ((get_final_waypoints true 5.0 (straightPath 300) 0 200).map fun wp => wp.speed)
      = some ((List.range 200).map scenarioASpeeds)
    rw [scenarioA_map]

/-- C6: nearest-waypoint search.  On a non-empty path the scan returns an index
within the path whose 3-D Euclidean distance to the pose position is minimal
over all waypoints, and every strictly earlier index has strictly greater
distance (first occurrence wins on ties, because the comparison is strict). -/
theorem c6_closest_minimal (p : Point) (ws : List Waypoint) (hne : ws ≠ []) :
    get_closest_waypoint p ws < ws.length ∧
    (∀ j, j < ws.length →
      distance p ((ws.getD (get_closest_waypoint p ws) default).pos)
        ≤ distance p ((ws.getD j default).pos)) ∧
    (∀ j, j < get_closest_waypoint p ws →
      distance p ((ws.getD (get_closest_waypoint p ws) default).pos)
        < distance p ((ws.getD j default).pos)) :=
  get_closest_spec p ws hne

/-- Witness for C6 on a two-waypoint path with a distance tie: the scan
returns the first index 0. -/
theorem c6_closest_minimal_witness :
    (tiePath ≠ []) ∧
    get_closest_waypoint { x := 0, y := 0, z := 0 } tiePath = 0 ∧
    (get_closest_waypoint { x := 0, y := 0, z := 0 } tiePath < tiePath.length ∧
      (∀ j, j < tiePath.length →
        distance { x := 0, y := 0, z := 0 }
            ((tiePath.getD (get_closest_waypoint { x := 0, y := 0, z := 0 } tiePath)
              default).pos)
          ≤ distance { x := 0, y := 0, z := 0 } ((tiePath.getD j default).pos)) ∧
      (∀ j, j < get_closest_waypoint { x := 0, y := 0, z := 0 } tiePath →
        distance { x := 0, y := 0, z := 0 }
            ((tiePath.getD (get_closest_waypoint { x := 0, y := 0, z := 0 } tiePath)
              default).pos)
          < distance { x := 0, y := 0, z := 0 } ((tiePath.getD j default).pos))) :=
  ⟨by simp [tiePath], tie_first,
    c6_closest_minimal { x := 0, y := 0, z := 0 } tiePath (by simp [tiePath])⟩

/-- C7: heading refinement.  When the absolute difference between the vehicle
yaw and the bearing to the closest waypoint exceeds π/4, the locator returns
the closest index plus one without wrapping modulo the path length (so it can
return the length itself); otherwise it returns the closest index unchanged. -/
theorem c7_heading_refinement (pose : Pose) (ws : List Waypoint) (hne : ws ≠ []) :
    (|quaternionYaw pose.orient -
        atan2 ((ws.getD (get_closest_waypoint pose.pos ws) default).pos.y - pose.pos.y)
          ((ws.getD (get_closest_waypoint pose.pos ws) default).pos.x - pose.pos.x)|
        > Real.pi / 4 →
      get_next_waypoint pose ws = get_closest_waypoint pose.pos ws + 1) ∧
    (¬ (|quaternionYaw pose.orient -
        atan2 ((ws.getD (get_closest_waypoint pose.pos ws) default).pos.y - pose.pos.y)
          ((ws.getD (get_closest_waypoint pose.pos ws) default).pos.x - pose.pos.x)|
        > Real.pi / 4) →
      get_next_waypoint pose ws = get_closest_waypoint pose.pos ws) := by
  constructor
  · intro hgt
    show (if |quaternionYaw pose.orient -
        atan2 ((ws.getD (get_closest_waypoint pose.pos ws) default).pos.y - pose.pos.y)
          ((ws.getD (get_closest_waypoint pose.pos ws) default).pos.x - pose.pos.x)|
        > Real.pi / 4
      then get_closest_waypoint pose.pos ws + 1 else get_closest_waypoint pose.pos ws)
      = get_closest_waypoint pose.pos ws + 1
    rw [if_pos hgt]
  · intro hle
    show (if |quaternionYaw pose.orient -
        atan2 ((ws.getD (get_closest_waypoint pose.pos ws) default).pos.y - pose.pos.y)
          ((ws.getD (get_closest_waypoint pose.pos ws) default).pos.x - pose.pos.x)|
        > Real.pi / 4
      then get_closest_waypoint pose.pos ws + 1 else get_closest_waypoint pose.pos ws)
      = get_closest_waypoint pose.pos ws
    rw [if_neg hle]

/-- Witness for C7: vehicle at `x = 1` facing the positive x-axis with a single
path waypoint at the origin (behind it): yaw 0, bearing π, the angle check
fires, and the returned index is the closest index 0 plus one. -/
theorem c7_heading_refinement_witness :
    ([originWp] ≠ ([] : List Waypoint)) ∧
    (|quaternionYaw behindPose.orient -
        atan2 ((([originWp] : List Waypoint).getD
            (get_closest_waypoint behindPose.pos [originWp]) default).pos.y - behindPose.pos.y)
          ((([originWp] : List Waypoint).getD
            (get_closest_waypoint behindPose.pos [originWp]) default).pos.x - behindPose.pos.x)|
        > Real.pi / 4) ∧
    get_next_waypoint behindPose [originWp]
      = get_closest_waypoint behindPose.pos [originWp] + 1 := by
  have hcond : |quaternionYaw behindPose.orient -
      atan2 ((([originWp] : List Waypoint).getD
          (get_closest_waypoint behindPose.pos [originWp]) default).pos.y - behindPose.pos.y)
        ((([originWp] : List Waypoint).getD
          (get_closest_waypoint behindPose.pos [originWp]) default).pos.x - behindPose.pos.x)|
      > Real.pi / 4 := by
    show |quaternionYaw behindPose.orient -
        atan2 (originWp.pos.y - behindPose.pos.y) (originWp.pos.x - behindPose.pos.x)|
        > Real.pi / 4
    rw [show behindPose.orient = default from rfl, quaternionYaw_default,
      show originWp.pos.y - behindPose.pos.y = 0 by norm_num [originWp, behindPose],
      show originWp.pos.x - behindPose.pos.x = -1 by norm_num [originWp, behindPose],
      atan2_zero_negone, zero_sub, abs_neg, abs_of_nonneg Real.pi_pos.le]
    linarith [Real.pi_pos]
  exact ⟨by simp, hcond,
    (c7_heading_refinement behindPose [originWp] (by simp)).1 hcond⟩

end WU
